import Mathlib

/-!
# Verification of the meta-app-backend webhook relay

Shallow embedding of `src/index.js`: an Express server that answers the
Meta webhook handshake, verifies `x-hub-signature-256` HMAC signatures on
inbound webhook POSTs, auto-replies to Instagram direct messages through
the Graph API, and lists conversations for the linked business account.

Modelling conventions:
* Parsed JSON request bodies are values of the inductive type `J`
  (`express.json` hands the handler a parsed value; duplicate keys are
  already collapsed by `JSON.parse`, so object field lists are assumed
  key-unique and lookup takes the first match).
* JavaScript `undefined` and `null` are both modelled as `J.null`: the two
  are distinguishable in JavaScript, but every use in this program goes
  through truthiness tests or optional chaining, where they behave alike.
* Raw request bodies and digests are byte lists (`List Nat`, each < 256);
  `Buffer.from` on strings is modelled by a concrete UTF-8 encoder.
* Outbound network calls (axios) are modelled by oracle arguments: the
  handler is a function of the remote responses it would receive.
-/

namespace MetaApp

/-- A parsed JSON value, as delivered to the handlers by `express.json`.
`null` also stands for JavaScript `undefined` (see module comment). -/
inductive J where
  | null : J
  | bool : Bool → J
  | num : Int → J
  | str : String → J
  | arr : List J → J
  | obj : List (String × J) → J

/-- JavaScript truthiness of a parsed JSON value: `null`/`undefined`,
`false`, `0` and `""` are falsy; every array and object is truthy. -/
def truthy : J → Bool
  | .null => false
  | .bool b => b
  | .num n => n != 0
  | .str s => s != ""
  | .arr _ => true
  | .obj _ => true

/-- First-match field lookup in an object's field list (JSON.parse output
has unique keys, so first-match equals last-match). -/
def lookupField : List (String × J) → String → Option J
  | [], _ => none
  | (k', v) :: rest, k => if k' = k then some v else lookupField rest k

/-- Property access `x.k` as used under optional chaining / on parsed JSON:
missing fields and non-objects give `undefined` (modelled `J.null`). -/
def jget : J → String → J
  | .obj fs, k => (lookupField fs k).getD .null
  | _, _ => .null

/-- Property access that remembers absence: `some v` when `x` is an object
carrying field `k`, `none` (JavaScript `undefined`) otherwise. -/
def optField : J → String → Option J
  | .obj fs, k => lookupField fs k
  | _, _ => none

/-- Iteration `for (const x of v)`: arrays iterate their elements, strings
iterate their characters (as 1-character strings); any other value raises
a `TypeError`, modelled as `Except.error`. -/
def jsIterate : J → Except Unit (List J)
  | .arr xs => .ok xs
  | .str s => .ok (s.data.map fun c => .str (String.singleton c))
  | _ => .error ()

mutual
/-- JavaScript string coercion of a JSON value, as performed by a template
literal: strings pass through, numbers and booleans print, arrays join
their elements with `,` (with `null` elements printing empty, as
`Array.prototype.join` does), objects print `[object Object]`. -/
def jsToString : J → String
  | .null => "null"
  | .bool b => if b then "true" else "false"
  | .num n => toString n
  | .str s => s
  | .arr xs => String.intercalate "," (jsItemStrings xs)
  | .obj _ => "[object Object]"

/-- Element-wise coercion used by `Array.prototype.join`: `null` and
`undefined` elements become the empty string. -/
def jsItemStrings : List J → List String
  | [] => []
  | .null :: rest => "" :: jsItemStrings rest
  | x :: rest => jsToString x :: jsItemStrings rest
end

/-! ## Bytes, UTF-8 and hex (`Buffer.from`, `digest("hex")`) -/

/-- UTF-8 encoding of one Unicode code point, as `Buffer.from(string)`
performs it. -/
def utf8Char (c : Nat) : List Nat :=
  if c < 0x80 then [c]
  else if c < 0x800 then [0xC0 + c / 0x40, 0x80 + c % 0x40]
  else if c < 0x10000 then
    [0xE0 + c / 0x1000, 0x80 + c / 0x40 % 0x40, 0x80 + c % 0x40]
  else
    [0xF0 + c / 0x40000, 0x80 + c / 0x1000 % 0x40, 0x80 + c / 0x40 % 0x40,
      0x80 + c % 0x40]

/-- UTF-8 bytes of a character list. -/
def utf8Bytes (l : List Char) : List Nat := l.flatMap fun c => utf8Char c.toNat

/-- Bytes of a string as `Buffer.from(s)` yields them: UTF-8. -/
def strBytes (s : String) : List Nat := utf8Bytes s.data

/-- Lowercase hex digit of `n % 16`, as produced by `digest("hex")`. -/
def hexChar (n : Nat) : Char := "0123456789abcdef".data.getD (n % 16) '0'

/-- The two lowercase hex digits of one byte. -/
def byteHex (b : Nat) : List Char := [hexChar (b / 16), hexChar b]

/-- Lowercase hex rendering of a byte list. -/
def hexDigest (bs : List Nat) : String := ⟨bs.flatMap byteHex⟩

/-! ## SHA-256 and HMAC-SHA256 (`crypto.createHmac("sha256", _)`) -/

/-- Truncation to a 32-bit word. -/
def w32 (n : Nat) : Nat := n % 4294967296

/-- 32-bit right rotation of a word (the two shifted parts are disjoint, so
addition is the bitwise or). -/
def rotr (k x : Nat) : Nat := w32 (x / 2 ^ k + x * 2 ^ (32 - k))

def bigSigma0 (x : Nat) : Nat := rotr 2 x ^^^ rotr 13 x ^^^ rotr 22 x

def bigSigma1 (x : Nat) : Nat := rotr 6 x ^^^ rotr 11 x ^^^ rotr 25 x

def smallSigma0 (x : Nat) : Nat := rotr 7 x ^^^ rotr 18 x ^^^ x / 2 ^ 3

def smallSigma1 (x : Nat) : Nat := rotr 17 x ^^^ rotr 19 x ^^^ x / 2 ^ 10

/-- The 64 SHA-256 round constants (FIPS 180-4, written in decimal). -/
def sha256K : List Nat :=
  [1116352408, 1899447441, 3049323471, 3921009573, 961987163, 1508970993,
   2453635748, 2870763221, 3624381080, 310598401, 607225278, 1426881987,
   1925078388, 2162078206, 2614888103, 3248222580, 3835390401, 4022224774,
   264347078, 604807628, 770255983, 1249150122, 1555081692, 1996064986,
   2554220882, 2821834349, 2952996808, 3210313671, 3336571891, 3584528711,
   113926993, 338241895, 666307205, 773529912, 1294757372, 1396182291,
   1695183700, 1986661051, 2177026350, 2456956037, 2730485921, 2820302411,
   3259730800, 3345764771, 3516065817, 3600352804, 4094571909, 275423344,
   430227734, 506948616, 659060556, 883997877, 958139571, 1322822218,
   1537002063, 1747873779, 1955562222, 2024104815, 2227730452, 2361852424,
   2428436474, 2756734187, 3204031479, 3329325298]

/-- The SHA-256 initial hash state (FIPS 180-4, written in decimal). -/
def sha256H0 : List Nat :=
  [1779033703, 3144134277, 1013904242, 2773480762, 1359893119, 2600822924,
   528734635, 1541459225]

/-- The `k` big-endian bytes of `n`. -/
def beBytes (k n : Nat) : List Nat :=
  (List.range k).map fun i => n / 256 ^ (k - 1 - i) % 256

/-- SHA-256 padding: a 0x80 byte, zeros up to 56 mod 64, then the 64-bit
big-endian bit length. -/
def shaPad (msg : List Nat) : List Nat :=
  msg ++ 0x80 :: List.replicate ((119 - msg.length % 64) % 64) 0 ++
    beBytes 8 (msg.length * 8)

/-- Big-endian 32-bit words of a byte list. -/
def beWords : List Nat → List Nat
  | a :: b :: c :: d :: rest => (((a * 256 + b) * 256 + c) * 256 + d) :: beWords rest
  | _ => []

/-- Extend the 16-word message schedule by `k` further words. -/
def extendSchedule : List Nat → Nat → List Nat
  | ws, 0 => ws
  | ws, k + 1 =>
    let n := ws.length
    let w := w32 (smallSigma1 (ws.getD (n - 2) 0) + ws.getD (n - 7) 0 +
      smallSigma0 (ws.getD (n - 15) 0) + ws.getD (n - 16) 0)
    extendSchedule (ws ++ [w]) k

/-- One round of the SHA-256 compression function on a state `[a,...,h]`. -/
def shaRound (st : List Nat) (kw : Nat × Nat) : List Nat :=
  match st with
  | [a, b, c, d, e, f, g, h] =>
    let t1 := w32 (h + bigSigma1 e + ((e &&& f) ^^^ ((e ^^^ 0xffffffff) &&& g)) +
      kw.1 + kw.2)
    let t2 := w32 (bigSigma0 a + ((a &&& b) ^^^ (a &&& c) ^^^ (b &&& c)))
    [w32 (t1 + t2), a, b, c, w32 (d + t1), e, f, g]
  | st => st

/-- Compress one 64-byte block into the running hash state. -/
def shaCompress (h : List Nat) (block : List Nat) : List Nat :=
  let ws := extendSchedule (beWords block) 48
  let st := (sha256K.zip ws).foldl shaRound h
  (h.zip st).map fun p => w32 (p.1 + p.2)

/-- The 64-byte chunks of a byte list, with fuel for structural recursion
(each chunk consumes at least one byte, so `l.length` fuel is enough). -/
def chunks64Fuel : Nat → List Nat → List (List Nat)
  | 0, _ => []
  | _, [] => []
  | fuel + 1, b :: rest => ((b :: rest).take 64) :: chunks64Fuel fuel ((b :: rest).drop 64)

/-- The 64-byte chunks of a byte list. -/
def chunks64 (l : List Nat) : List (List Nat) := chunks64Fuel l.length l

/-- SHA-256 of a byte list. -/
def sha256 (msg : List Nat) : List Nat :=
  ((chunks64 (shaPad msg)).foldl shaCompress sha256H0).flatMap (beBytes 4)

/-- HMAC-SHA256 with byte-list key and message (RFC 2104, block size 64). -/
def hmacSha256 (key msg : List Nat) : List Nat :=
  let k0 := if 64 < key.length then sha256 key else key
  let kp := k0 ++ List.replicate (64 - k0.length) 0
  sha256 ((kp.map fun b => b ^^^ 0x5c) ++ sha256 ((kp.map fun b => b ^^^ 0x36) ++ msg))

/-! ## Signature verifier (`verifyMetaSignature`) -/

/-- JavaScript truthiness of an optional string value: absent and the empty
string are falsy. -/
def truthyStr : Option String → Bool
  | none => false
  | some s => s != ""

/-- Constant-time buffer comparison `crypto.timingSafeEqual`: equality of
two byte buffers, except that a `RangeError` (modelled as `Except.error`)
is thrown when their lengths differ. -/
def timingSafeEqual (a b : List Nat) : Except Unit Bool :=
  if a.length = b.length then .ok (decide (a = b)) else .error ()

/-- The signature string the server computes for a raw body:
`"sha256=" + hex(HMAC-SHA256(APP_SECRET, rawBody))`. -/
def expectedSig (secret : String) (rawBody : List Nat) : String :=
  "sha256=" ++ hexDigest (hmacSha256 (strBytes secret) rawBody)

/-- The verifier `verifyMetaSignature(req)`, as a function of the raw body
bytes, the `x-hub-signature-256` header and `APP_SECRET`: skips verification (returns
true) when the header or the secret is falsy (`!signature || !APP_SECRET`);
otherwise compares the header against the expected signature with
`timingSafeEqual`, any thrown error (e.g. differing buffer lengths)
yielding false through the surrounding `catch`. -/
def verifyMetaSignature (rawBody : List Nat) (signature secret : Option String) : Bool :=
  if !truthyStr signature || !truthyStr secret then true
  else
    match timingSafeEqual (strBytes (signature.getD ""))
        (strBytes (expectedSig (secret.getD "") rawBody)) with
    | .ok b => b
    | .error _ => false

/-! ## Webhook handshake (GET /webhook) -/

/-- The handshake handler `app.get("/webhook")`: responds 200 with the
literal `hub.challenge` value when `hub.mode` is `"subscribe"` and
`hub.verify_token` equals the configured `VERIFY_TOKEN` (strict equality:
two absent values compare equal); otherwise `res.sendStatus(403)`. The
second component is the echoed challenge (`none` when no challenge is
echoed). -/
def webhookGet (verifyToken : Option String) (mode token challenge : Option String) :
    Nat × Option String :=
  if mode = some "subscribe" ∧ token = verifyToken then (200, challenge)
  else (403, none)

/-! ## Auto-reply send (tryReplyInstagram) -/

/-- The JSON payload `tryReplyInstagram` POSTs to `/v21.0/me/messages` for
recipient `igPsid` and reply `text`. -/
def sendPayload (igPsid : J) (text : String) : J :=
  .obj [("messaging_product", .str "instagram"),
        ("recipient", .obj [("id", igPsid)]),
        ("message", .obj [("text", .str text)])]

/-- Outcome of the axios POST inside `tryReplyInstagram`: a 2xx response
with its body, or a rejection optionally carrying an HTTP response (status
and body — a pure network error carries none). -/
inductive AxiosOutcome where
  | success : J → AxiosOutcome
  | failure : Option (Nat × J) → AxiosOutcome

/-- The structured error captured by `tryReplyInstagram` on failure; a
field is `none` when the corresponding source value is absent
(JavaScript `undefined`). -/
structure ReplyError where
  status : Option Nat
  code : Option J
  subcode : Option J
  message : Option J
  type : Option J

/-- Result of a reply attempt: `{ok: true, data}` or `{ok: false, error}`. -/
inductive ReplyResult where
  | ok : J → ReplyResult
  | err : ReplyError → ReplyResult

/-- The sender `tryReplyInstagram(igPsid, text)`, as a function of the
axios outcome: on success wraps the response data; on failure takes
`error?.response?.data || {}` and captures status, `error.code`,
`error.error_subcode`, `error.message` and `error.type` from it; it never
throws (the whole body is inside try/catch). -/
def tryReplyInstagram (igPsid : J) (text : String) (outcome : AxiosOutcome) :
    ReplyResult :=
  match igPsid, text, outcome with
  | _, _, .success d => .ok d
  | _, _, .failure resp =>
    let errData := match resp with
      | some (_, d) => if truthy d then d else .obj []
      | none => .obj []
    let e := jget errData "error"
    .err { status := resp.map (·.1), code := optField e "code",
           subcode := optField e "error_subcode",
           message := optField e "message", type := optField e "type" }

/-! ## Webhook receiver (POST /webhook) -/

/-- One send call issued by the webhook handler: the recipient value
(`event.sender.id`, kept as the JSON value the payload will carry) and the
reply text. -/
abbrev SendCall := J × String

/-- The reply text template: `messageText || "(no text)"` interpolated
into the thanks message — a falsy text (absent, empty string, 0, false,
null) prints as `(no text)`; any other value is string-coerced. -/
def replyText (messageText : J) : String :=
  "Thanks for messaging us! You said: \"" ++
    (if truthy messageText then jsToString messageText else "(no text)") ++ "\""

/-- Processing of one event of the selected list: an event with a truthy
`message` and a truthy `sender.id` produces one send call with the
templated reply; every other event is skipped. -/
def eventSend (event : J) : Option SendCall :=
  let senderId := jget (jget event "sender") "id"
  let messageText := jget (jget event "message") "text"
  if truthy (jget event "message") && truthy senderId then
    some (senderId, replyText messageText)
  else none

/-- The event list selected for an entry:
`entry.messaging || entry.standby || []`. -/
def changesVal (entry : J) : J :=
  if truthy (jget entry "messaging") then jget entry "messaging"
  else if truthy (jget entry "standby") then jget entry "standby"
  else .arr []

/-- Per-entry event dispatch: iterating a truthy non-iterable `changes`
value throws, aborting this and all later entries (sends already made
stand); the Bool records whether the loop ended in a thrown error. -/
def processEntries : List J → List SendCall × Bool
  | [] => ([], false)
  | e :: rest =>
    match jsIterate (changesVal e) with
    | .error _ => ([], true)
    | .ok events =>
      let sends := events.filterMap eventSend
      let more := processEntries rest
      (sends ++ more.1, more.2)

/-- The event-processing `try` block, as a function of the `body.entry`
value: skipped when falsy; iterating a truthy non-iterable throws (caught
at top level). -/
def processEntryVal (entryVal : J) : List SendCall × Bool :=
  if truthy entryVal then
    match jsIterate entryVal with
    | .error _ => ([], true)
    | .ok entries => processEntries entries
  else ([], false)

/-- All send calls the webhook handler issues for a parsed body, with a
flag recording whether processing was cut short by a caught exception. -/
def webhookProcess (body : J) : List SendCall × Bool :=
  processEntryVal (jget body "entry")

/-- The receiver `app.post("/webhook")`: a failed signature check answers
403 immediately (no body processing, no sends); otherwise the events are
processed — any processing exception is caught and only logged — and the
handler answers 200. Result: status code and the send calls issued. -/
def webhookPost (secret : Option String) (rawBody : List Nat)
    (signature : Option String) (body : J) : Nat × List SendCall :=
  if verifyMetaSignature rawBody signature secret then
    (200, (webhookProcess body).1)
  else (403, [])

/-! ## Business-account resolution (getIGUserId) and conversation listing -/

/-- Message of the `Error` thrown when neither linking field yields an id. -/
def resolutionErrorMsg : String :=
  "Could not resolve IG Business User ID. Ensure IG account is connected to the FB Page and permissions are granted."

/-- The fallback chain over the page response:
`connected_instagram_account?.id || instagram_business_account?.id`. -/
def resolveIGId (pageData : J) : J :=
  if truthy (jget (jget pageData "connected_instagram_account") "id") then
    jget (jget pageData "connected_instagram_account") "id"
  else jget (jget pageData "instagram_business_account") "id"

/-- The resolver `getIGUserId()`, as a function of the two Graph GET
responses: first `/me?fields=id` (a rejection propagates), then the page
lookup with `fields=connected_instagram_account,instagram_business_account`
on the extracted page id (a rejection propagates); returns the first
truthy linked id, else throws `resolutionErrorMsg`. -/
def getIGUserId (meResult : Except String J)
    (pageResult : J → Except String J) : Except String J :=
  match meResult with
  | .error e => .error e
  | .ok meData =>
    match pageResult (jget meData "id") with
    | .error e => .error e
    | .ok pageData =>
      let igUserId := resolveIGId pageData
      if truthy igUserId then .ok igUserId else .error resolutionErrorMsg

/-- Outcome of an Express handler invocation: a response actually sent, or
an exception escaping the async handler — in which case Express 4 sends no
response at all and the process records an unhandled rejection. -/
inductive HandlerOutcome where
  | responded : Nat → J → HandlerOutcome
  | uncaught : String → HandlerOutcome

/-- Description of the `ReferenceError` raised inside the conversation
lister's catch block: `stringifyGraphError` is called there but defined
nowhere in the repository's single source file. -/
def stringifyGraphErrorMissing : String :=
  "ReferenceError: stringifyGraphError is not defined"

/-- The lister `app.get("/ig/conversations")`, as a function of the
account-resolution outcome and the upstream conversations query (an oracle
from the resolved id): on success answers 200 with
`{success: true, data: data.data || [], paging: data.paging || null}`;
when either step rejects, the catch block evaluates the undefined
identifier `stringifyGraphError`, so a `ReferenceError` escapes the
handler and no response is sent. -/
def igConversations (resolution : Except String J)
    (conversationsQuery : J → Except String J) : HandlerOutcome :=
  let outcome : Except String J := match resolution with
    | .error e => .error e
    | .ok igUserId => conversationsQuery igUserId
  match outcome with
  | .ok data =>
    .responded 200 (.obj
      [("success", .bool true),
       ("data", if truthy (jget data "data") then jget data "data" else .arr []),
       ("paging", if truthy (jget data "paging") then jget data "paging" else .null)])
  | .error _ => .uncaught stringifyGraphErrorMissing

/-! ## Helper lemmas -/

theorem char_toNat_inj {a b : Char} (h : a.toNat = b.toNat) : a = b := by
  apply Char.eq_of_val_eq
  apply UInt32.eq_of_toBitVec_eq
  apply BitVec.eq_of_toNat_eq
  simpa [Char.toNat, UInt32.toNat] using h

theorem string_ext {s t : String} (h : s.data = t.data) : s = t := by
  cases s
  cases t
  exact congrArg String.mk h

theorem utf8Char_ne_nil (c : Nat) : utf8Char c ≠ [] := by
  unfold utf8Char
  split_ifs <;> simp

theorem utf8Char_of_lt {c : Nat} (h : c < 128) : utf8Char c = [c] := by
  unfold utf8Char
  rw [if_pos h]

theorem utf8Char_ascii_head {c b : Nat} {bs : List Nat}
    (hb : utf8Char c = b :: bs) (hlt : b < 128) :
    c < 128 ∧ utf8Char c = [c] ∧ b = c ∧ bs = [] := by
  unfold utf8Char at hb
  split_ifs at hb with h1 h2 h3
  · injection hb with h4 h5
    exact ⟨h1, utf8Char_of_lt h1, h4.symm, h5.symm⟩
  · injection hb with h4 h5
    omega
  · injection hb with h4 h5
    omega
  · injection hb with h4 h5
    omega

theorem utf8Bytes_nil : utf8Bytes [] = [] := rfl

theorem utf8Bytes_cons (c : Char) (cs : List Char) :
    utf8Bytes (c :: cs) = utf8Char c.toNat ++ utf8Bytes cs := by
  simp [utf8Bytes]

theorem utf8Bytes_ascii_of_chars {l : List Char} (h : ∀ c ∈ l, c.toNat < 128) :
    ∀ b ∈ utf8Bytes l, b < 128 := by
  induction l with
  | nil => intro b hb; simp [utf8Bytes] at hb
  | cons c cs ih =>
    intro b hb
    rw [utf8Bytes_cons] at hb
    rcases List.mem_append.mp hb with hl | hr
    · have hc : c.toNat < 128 := h c (by simp)
      rw [utf8Char_of_lt hc] at hl
      simp at hl
      omega
    · exact ih (fun d hd => h d (List.mem_cons_of_mem c hd)) b hr

theorem utf8Bytes_inj_of_ascii :
    ∀ (l1 l2 : List Char), (∀ b ∈ utf8Bytes l2, b < 128) →
      utf8Bytes l1 = utf8Bytes l2 → l1 = l2 := by
  intro l1 l2
  induction l2 generalizing l1 with
  | nil =>
    intro _ heq
    cases l1 with
    | nil => rfl
    | cons d ds =>
      rw [utf8Bytes_cons, utf8Bytes_nil] at heq
      rcases List.append_eq_nil.mp heq with ⟨h1, _⟩
      exact absurd h1 (utf8Char_ne_nil d.toNat)
  | cons c cs ih =>
    intro hascii heq
    obtain ⟨b, bs, hcb⟩ : ∃ b bs, utf8Char c.toNat = b :: bs := by
      cases hc : utf8Char c.toNat with
      | nil => exact absurd hc (utf8Char_ne_nil c.toNat)
      | cons b bs => exact ⟨b, bs, rfl⟩
    have hblt : b < 128 := by
      apply hascii
      rw [utf8Bytes_cons, hcb]
      simp
    obtain ⟨hc128, hceq, hbc, hbs⟩ := utf8Char_ascii_head hcb hblt
    cases l1 with
    | nil =>
      rw [utf8Bytes_nil, utf8Bytes_cons, hceq] at heq
      simp at heq
    | cons d ds =>
      rw [utf8Bytes_cons, utf8Bytes_cons, hceq] at heq
      obtain ⟨b', bs', hdb⟩ : ∃ b bs, utf8Char d.toNat = b :: bs := by
        cases hd : utf8Char d.toNat with
        | nil => exact absurd hd (utf8Char_ne_nil d.toNat)
        | cons b bs => exact ⟨b, bs, rfl⟩
      rw [hdb] at heq
      simp only [List.cons_append, List.singleton_append] at heq
      injection heq with h1 h2
      have hb'lt : b' < 128 := by rw [h1]; exact hc128
      obtain ⟨hd128, hdeq, hbd, hbs'⟩ := utf8Char_ascii_head hdb hb'lt
      have hdc : d = c := char_toNat_inj (by rw [← hbd, h1])
      subst hdc
      subst hbs'
      simp only [List.nil_append] at h2
      have htail : ∀ x ∈ utf8Bytes cs, x < 128 := by
        intro x hx
        apply hascii
        rw [utf8Bytes_cons]
        exact List.mem_append_right _ hx
      rw [ih ds htail h2]

theorem hexChar_ascii (n : Nat) : (hexChar n).toNat < 128 := by
  have hball : ∀ m, m < 16 → ("0123456789abcdef".data.getD m '0').toNat < 128 := by decide
  exact hball (n % 16) (Nat.mod_lt _ (by omega))

theorem hexDigest_ascii (bs : List Nat) : ∀ c ∈ (hexDigest bs).data, c.toNat < 128 := by
  intro c hc
  have hmem : c ∈ bs.flatMap byteHex := hc
  rcases List.mem_flatMap.mp hmem with ⟨b, _, hcb⟩
  simp [byteHex] at hcb
  rcases hcb with h | h <;> (rw [h]; exact hexChar_ascii _)

theorem expectedSig_ascii (s : String) (r : List Nat) :
    ∀ c ∈ (expectedSig s r).data, c.toNat < 128 := by
  intro c hc
  rw [expectedSig, String.data_append] at hc
  rcases List.mem_append.mp hc with h | h
  · have hlit : ∀ c ∈ ("sha256=" : String).data, c.toNat < 128 := by decide
    exact hlit c h
  · exact hexDigest_ascii _ c h

theorem expectedSig_length (s : String) (r : List Nat) : 7 ≤ (expectedSig s r).length := by
  rw [expectedSig, String.length_append]
  have h7 : ("sha256=" : String).length = 7 := rfl
  omega

theorem expectedSig_ne_of_length_lt {t s : String} {r : List Nat}
    (h : t.length < 7) : t ≠ expectedSig s r := by
  intro he
  have := expectedSig_length s r
  rw [← he] at this
  omega

theorem strBytes_eq_expectedSig {s sec : String} {r : List Nat}
    (h : strBytes s = strBytes (expectedSig sec r)) : s = expectedSig sec r := by
  apply string_ext
  exact utf8Bytes_inj_of_ascii s.data (expectedSig sec r).data
    (utf8Bytes_ascii_of_chars (expectedSig_ascii sec r)) h

theorem verify_false_of_tampered (rawBody : List Nat) (secret tampered : String)
    (hsec : secret ≠ "") (hsig : tampered ≠ "")
    (hne : tampered ≠ expectedSig secret rawBody) :
    verifyMetaSignature rawBody (some tampered) (some secret) = false := by
  have hbne : strBytes tampered ≠ strBytes (expectedSig secret rawBody) :=
    fun hb => hne (strBytes_eq_expectedSig hb)
  have h1 : truthyStr (some tampered) = true := by simp [truthyStr, hsig]
  have h2 : truthyStr (some secret) = true := by simp [truthyStr, hsec]
  unfold verifyMetaSignature
  rw [if_neg (by simp [h1, h2])]
  simp only [Option.getD_some]
  by_cases hlen : (strBytes tampered).length = (strBytes (expectedSig secret rawBody)).length
  · simp [timingSafeEqual, hlen, hbne]
  · simp [timingSafeEqual, hlen]

/-! ## Claims -/

/-- Claim C4: the signature verifier returns true whenever the secret is
absent or the signature header is absent, and, for every secret and raw
body, accepts the genuine header `"sha256=" + hex(HMAC-SHA256(secret, body))`. -/
theorem c4_verify_accepts :
    (∀ (rawBody : List Nat) (signature : Option String),
        verifyMetaSignature rawBody signature none = true) ∧
    (∀ (rawBody : List Nat) (secret : Option String),
        verifyMetaSignature rawBody none secret = true) ∧
    (∀ (rawBody : List Nat) (secret : String),
        verifyMetaSignature rawBody (some (expectedSig secret rawBody))
          (some secret) = true) := by
  refine ⟨fun r s => ?_, fun r s => ?_, fun r s => ?_⟩
  · simp [verifyMetaSignature, truthyStr]
  · simp [verifyMetaSignature, truthyStr]
  · by_cases hs : s = ""
    · simp [verifyMetaSignature, truthyStr, hs]
    · have hx : expectedSig s r ≠ "" :=
        Ne.symm (expectedSig_ne_of_length_lt (by decide))
      simp [verifyMetaSignature, truthyStr, hs, hx, timingSafeEqual]

/-- Claim C5, counterexample: with a configured secret and a present but
empty signature header the verifier returns true (the `!signature` guard
treats the empty header as unconfigured), although the header differs from
the expected signature; symmetrically for an empty configured secret. So
the claim "verify returns false for every differing header when a secret
is configured and a header is present" fails. -/
theorem c5_falsy_skips_check :
    (verifyMetaSignature [] (some "") (some "secret") = true ∧
      "" ≠ expectedSig "secret" []) ∧
    (verifyMetaSignature [] (some "x") (some "") = true ∧
      "x" ≠ expectedSig "" []) :=
  ⟨⟨rfl, expectedSig_ne_of_length_lt (by decide)⟩,
   ⟨rfl, expectedSig_ne_of_length_lt (by decide)⟩⟩

/-- Claim C5, amended: when a nonempty secret is configured and a nonempty
signature header is present, the verifier returns false for every header
that differs from the expected signature — including headers of a
different byte length, where the comparison throws and the catch yields
false. -/
theorem c5_verify_rejects_tampered :
    ∀ (rawBody : List Nat) (secret tampered : String),
      secret ≠ "" → tampered ≠ "" → tampered ≠ expectedSig secret rawBody →
      verifyMetaSignature rawBody (some tampered) (some secret) = false :=
  fun r sec sig hsec hsig hne => verify_false_of_tampered r sec sig hsec hsig hne

/-- Witness for C5 (amended): a concrete tampered header is rejected. -/
theorem c5_verify_rejects_tampered_witness :
    verifyMetaSignature [] (some "x") (some "secret") = false :=
  c5_verify_rejects_tampered [] "secret" "x" (by decide) (by decide)
    (expectedSig_ne_of_length_lt (by decide))

/-- Claim C1 (code bug): when account resolution or the upstream query
fails, the conversation lister does not answer 400 with a stringified
error — the catch block's call to the undefined `stringifyGraphError`
raises a `ReferenceError` that escapes the handler, so no response is
sent at all. -/
theorem c1_conversations_failure_uncaught :
    ∀ (e : String) (convQuery : J → Except String J),
      igConversations (.error e) convQuery = .uncaught stringifyGraphErrorMissing :=
  fun _ _ => rfl

/-- Claim C2, counterexample: an entry with no `messaging` list and a
standby message event does trigger an outbound send-reply call, refuting
"events taken from a standby list never cause an outbound send-reply
call". -/
theorem c2_standby_event_sends_reply :
    (webhookProcess (.obj [("entry", .arr [.obj [("standby", .arr
        [.obj [("sender", .obj [("id", .str "U1")]),
               ("message", .obj [("text", .str "hi")])]])]])])).1
      = [(.str "U1", "Thanks for messaging us! You said: \"hi\"")] ∧
    [((.str "U1" : J), "Thanks for messaging us! You said: \"hi\"")] ≠
      ([] : List SendCall) :=
  ⟨rfl, by simp⟩

/-- Claim C2, amended: each entry selects the `messaging` list when truthy,
else the `standby` list when truthy, else the empty list — and events of
the selected list trigger replies uniformly: an entry carrying only a
standby list produces exactly the sends the same list would produce under
`messaging`. -/
theorem c2_selection_standby_replies :
    (∀ entry : J, truthy (jget entry "messaging") = true →
        changesVal entry = jget entry "messaging") ∧
    (∀ entry : J, truthy (jget entry "messaging") = false →
        truthy (jget entry "standby") = true →
        changesVal entry = jget entry "standby") ∧
    (∀ entry : J, truthy (jget entry "messaging") = false →
        truthy (jget entry "standby") = false →
        changesVal entry = .arr []) ∧
    (∀ events : List J,
        processEntries [.obj [("standby", .arr events)]] =
          processEntries [.obj [("messaging", .arr events)]]) := by
  refine ⟨fun e h => ?_, fun e h1 h2 => ?_, fun e h1 h2 => ?_, fun evs => rfl⟩
  · simp [changesVal, h]
  · simp [changesVal, h1, h2]
  · simp [changesVal, h1, h2]

/-- Witness for C2 (amended): the selection cases at concrete entries. -/
theorem c2_selection_standby_replies_witness :
    changesVal (.obj [("messaging", .arr [.null]), ("standby", .arr [])])
        = jget (.obj [("messaging", .arr [.null]), ("standby", .arr [])]) "messaging" ∧
    changesVal (.obj [("standby", .arr [.null])])
        = jget (.obj [("standby", .arr [.null])]) "standby" ∧
    changesVal (.obj [("other", .str "x")]) = .arr [] :=
  ⟨c2_selection_standby_replies.1 _ rfl,
   c2_selection_standby_replies.2.1 _ rfl rfl,
   c2_selection_standby_replies.2.2.1 _ rfl rfl⟩

/-- Claim C3: a webhook POST whose signature check fails is answered 403
with no event processed and no send issued; when the check passes the
handler answers 200 whatever the payload and whatever happens during
processing (all processing errors are caught). -/
theorem c3_webhook_ack :
    ∀ (secret : Option String) (rawBody : List Nat) (signature : Option String)
      (body : J),
      (verifyMetaSignature rawBody signature secret = false →
        webhookPost secret rawBody signature body = (403, [])) ∧
      (verifyMetaSignature rawBody signature secret = true →
        (webhookPost secret rawBody signature body).1 = 200) := by
  intro sec r sig b
  constructor
  · intro h
    simp [webhookPost, h]
  · intro h
    simp [webhookPost, h]

/-- Witness for C3: both branches at concrete requests. -/
theorem c3_webhook_ack_witness :
    (webhookPost none [] none .null).1 = 200 ∧
    webhookPost (some "secret") [] (some "x") .null = (403, []) :=
  ⟨(c3_webhook_ack none [] none .null).2 rfl,
   (c3_webhook_ack (some "secret") [] (some "x") .null).1
     (verify_false_of_tampered [] "secret" "x" (by decide) (by decide)
       (expectedSig_ne_of_length_lt (by decide)))⟩

/-- Claim C6: the handshake answers 200 with the literal challenge when
`hub.mode` is `"subscribe"` and `hub.verify_token` equals the configured
token, and 403 in every other case. -/
theorem c6_handshake :
    ∀ (cfgToken : String) (mode token challenge : Option String),
      (mode = some "subscribe" → token = some cfgToken →
        webhookGet (some cfgToken) mode token challenge = (200, challenge)) ∧
      (¬(mode = some "subscribe" ∧ token = some cfgToken) →
        webhookGet (some cfgToken) mode token challenge = (403, none)) := by
  intro cfg mode token ch
  constructor
  · intro h1 h2
    simp [webhookGet, h1, h2]
  · intro h
    rw [webhookGet, if_neg h]

/-- Witness for C6: a matching and a mismatched handshake. -/
theorem c6_handshake_witness :
    webhookGet (some "VERIFY_ME") (some "subscribe") (some "VERIFY_ME")
        (some "xyz123") = (200, some "xyz123") ∧
    webhookGet (some "VERIFY_ME") (some "subscribe") (some "wrong")
        (some "xyz123") = (403, none) :=
  ⟨(c6_handshake "VERIFY_ME" (some "subscribe") (some "VERIFY_ME")
      (some "xyz123")).1 rfl rfl,
   (c6_handshake "VERIFY_ME" (some "subscribe") (some "wrong")
      (some "xyz123")).2 (by decide)⟩

/-- Claim C7, counterexample: an event whose message carries the empty
string as text is sent the `(no text)` reply, not the claim's empty-quoted
text (`messageText || "(no text)"` treats the empty string like absence). -/
theorem c7_empty_text_counterexample :
    eventSend (.obj [("sender", .obj [("id", .str "U1")]),
                     ("message", .obj [("text", .str "")])])
      = some (.str "U1", "Thanks for messaging us! You said: \"(no text)\"") ∧
    ("Thanks for messaging us! You said: \"(no text)\"" : String) ≠
      "Thanks for messaging us! You said: \"\"" :=
  ⟨rfl, by decide⟩

/-- Claim C7, amended: for every processed event with a truthy sender id
and a message object, the reply text is the thanks template around the
message text, with `(no text)` when the text is absent or empty; the
spec's example (sender U1, text "hi") produces exactly the documented
payload. -/
theorem c7_reply_payload :
    (∀ (sid : J) (t : String), truthy sid = true →
        eventSend (.obj [("sender", .obj [("id", sid)]),
                         ("message", .obj [("text", .str t)])])
          = some (sid, "Thanks for messaging us! You said: \"" ++
              (if t = "" then "(no text)" else t) ++ "\"")) ∧
    (∀ sid : J, truthy sid = true →
        eventSend (.obj [("sender", .obj [("id", sid)]), ("message", .obj [])])
          = some (sid, "Thanks for messaging us! You said: \"(no text)\"")) ∧
    sendPayload (.str "U1") "Thanks for messaging us! You said: \"hi\""
      = .obj [("messaging_product", .str "instagram"),
              ("recipient", .obj [("id", .str "U1")]),
              ("message", .obj [("text",
                .str "Thanks for messaging us! You said: \"hi\"")])] ∧
    eventSend (.obj [("sender", .obj [("id", .str "U1")]),
                     ("message", .obj [("text", .str "hi")])])
      = some (.str "U1", "Thanks for messaging us! You said: \"hi\"") := by
  refine ⟨fun sid t h => ?_, fun sid h => ?_, rfl, rfl⟩
  · have hm : truthy (J.obj [("text", J.str t)]) = true := rfl
    by_cases ht : t = ""
    · subst ht
      simp [eventSend, jget, lookupField, replyText, h,
        show truthy (J.obj [("text", J.str "")]) = true from rfl,
        show truthy (J.str "") = false from rfl]
    · have htt : truthy (J.str t) = true := by simp [truthy, ht]
      simp [eventSend, jget, lookupField, replyText, hm, h, htt, ht, jsToString]
  · have hm : truthy (J.obj ([] : List (String × J))) = true := rfl
    have hn : truthy J.null = false := rfl
    simp [eventSend, jget, lookupField, replyText, hm, hn, h]

/-- Witness for C7 (amended): the template at the spec's example event. -/
theorem c7_reply_payload_witness :
    eventSend (.obj [("sender", .obj [("id", .str "U1")]),
                     ("message", .obj [("text", .str "hi")])])
      = some (.str "U1", "Thanks for messaging us! You said: \"" ++
          (if ("hi" : String) = "" then "(no text)" else "hi") ++ "\"") :=
  c7_reply_payload.1 (.str "U1") "hi" rfl

/-- Claim C8: the reply sender is total — every axios outcome yields
either `{ok: true, data}` with the response payload or `{ok: false,
error}` with status, code, subcode, message and type extracted from
`error.response.data.error` when present (absent fields staying absent,
and a response-less rejection yielding all-absent fields). -/
theorem c8_try_reply_result_shape :
    ∀ (igPsid : J) (text : String),
      (∀ outcome, (∃ d, tryReplyInstagram igPsid text outcome = .ok d) ∨
        (∃ e, tryReplyInstagram igPsid text outcome = .err e)) ∧
      (∀ d, tryReplyInstagram igPsid text (.success d) = .ok d) ∧
      (∀ (st : Nat) (d : J), tryReplyInstagram igPsid text (.failure (some (st, d)))
        = .err { status := some st,
                 code := optField (jget (if truthy d then d else .obj []) "error") "code",
                 subcode := optField (jget (if truthy d then d else .obj []) "error") "error_subcode",
                 message := optField (jget (if truthy d then d else .obj []) "error") "message",
                 type := optField (jget (if truthy d then d else .obj []) "error") "type" }) ∧
      (tryReplyInstagram igPsid text (.failure none)
        = .err { status := none, code := none, subcode := none,
                 message := none, type := none }) := by
  intro p t
  refine ⟨fun o => ?_, fun d => rfl, fun st d => rfl, rfl⟩
  cases o with
  | success d => exact .inl ⟨d, rfl⟩
  | failure r => exact .inr ⟨_, rfl⟩

/-- Claim C9: business-account resolution prefers the
`connected_instagram_account` id, falls back to the
`instagram_business_account` id, propagates a rejection of either GET, and
throws the resolution error (which reaches the caller) when neither field
yields a truthy id. -/
theorem c9_resolution_and_error :
    (∀ pageData : J,
        truthy (jget (jget pageData "connected_instagram_account") "id") = true →
        resolveIGId pageData
          = jget (jget pageData "connected_instagram_account") "id") ∧
    (∀ pageData : J,
        truthy (jget (jget pageData "connected_instagram_account") "id") = false →
        resolveIGId pageData
          = jget (jget pageData "instagram_business_account") "id") ∧
    (∀ (e : String) (pageResult : J → Except String J),
        getIGUserId (.error e) pageResult = .error e) ∧
    (∀ (meData pageData : J) (pageResult : J → Except String J),
        pageResult (jget meData "id") = .ok pageData →
        truthy (resolveIGId pageData) = false →
        getIGUserId (.ok meData) pageResult = .error resolutionErrorMsg) ∧
    (∀ (meData pageData : J) (pageResult : J → Except String J),
        pageResult (jget meData "id") = .ok pageData →
        truthy (resolveIGId pageData) = true →
        getIGUserId (.ok meData) pageResult = .ok (resolveIGId pageData)) := by
  refine ⟨fun pd h => ?_, fun pd h => ?_, fun e q => rfl,
    fun me pd q hq h => ?_, fun me pd q hq h => ?_⟩
  · simp [resolveIGId, h]
  · simp [resolveIGId, h]
  · simp [getIGUserId, hq, h]
  · simp [getIGUserId, hq, h]

/-- Witness for C9: preference and the thrown resolution error at concrete
responses. -/
theorem c9_resolution_and_error_witness :
    resolveIGId (.obj [("connected_instagram_account", .obj [("id", .str "IG1")])])
      = jget (jget (.obj [("connected_instagram_account",
          .obj [("id", .str "IG1")])]) "connected_instagram_account") "id" ∧
    getIGUserId (.ok (.obj [("id", .str "P1")])) (fun _ => .ok (.obj []))
      = .error resolutionErrorMsg :=
  ⟨c9_resolution_and_error.1 _ rfl,
   c9_resolution_and_error.2.2.2.1 _ (.obj []) (fun _ => .ok (.obj [])) rfl rfl⟩

/-- Claim C10: the webhook POST handler's status and outbound sends are
independent of the top-level `object` discriminator — two parsed bodies
agreeing on every other field produce identical results. -/
theorem c10_object_field_irrelevant :
    ∀ (secret : Option String) (rawBody : List Nat) (signature : Option String)
      (fs1 fs2 : List (String × J)),
      (∀ k, k ≠ "object" → lookupField fs1 k = lookupField fs2 k) →
      webhookPost secret rawBody signature (.obj fs1)
        = webhookPost secret rawBody signature (.obj fs2) := by
  intro sec r sig fs1 fs2 h
  have he : jget (.obj fs1) "entry" = jget (.obj fs2) "entry" := by
    simp [jget, h "entry" (by decide)]
  unfold webhookPost webhookProcess
  rw [he]

/-- Witness for C10: two concrete bodies differing only in `object`. -/
theorem c10_object_field_irrelevant_witness :
    webhookPost none [] none (.obj [("object", .str "instagram"), ("entry", .arr [])])
      = webhookPost none [] none (.obj [("object", .str "page"), ("entry", .arr [])]) := by
  apply c10_object_field_irrelevant
  intro k hk
  simp only [lookupField]
  rw [if_neg (Ne.symm hk), if_neg (Ne.symm hk)]

end MetaApp
